import Mathlib

/-!
Verification development for the streaming chat backend
(`src/backend/src` of the ai-chat-assistant repository).

The Python source is shallowly embedded: pure computations become Lean
functions, and effectful handlers become functions from the outcome of
their external calls (upstream LLM stream, database round-trips,
attachment extraction) to the trace of observable effects they perform
(frames sent on the channel, history appends, channel closes).
-/

namespace AIChat

/-! ## Chunk delivery protocol (`src/core/streaming.py`) -/

/-- A JSON value as produced by the frames of this backend: every frame is a
flat object whose values are strings, booleans, or a string-valued dictionary
(the `metadata` field).  An object is the ordered list of its key/value pairs,
matching Python dict insertion order, which `json.dumps` preserves. -/
inductive JVal where
  | str (s : String)
  | bool (b : Bool)
  | dict (d : List (String × String))
deriving DecidableEq, Repr

/-- `StreamChunk` from `src/core/streaming.py` lines 11-24.  Python defaults:
`content=""`, `done=False`, `metadata=None` (replaced by `{}`), `error=None`. -/
structure StreamChunk where
  content : String := ""
  done : Bool := false
  metadata : List (String × String) := []
  error : Option String := none
deriving DecidableEq, Repr

/-- `StreamChunk.to_json` (streaming.py lines 26-35): the serialized object has
keys `content`, `done`, `metadata` in that order, and an `error` key exactly
when `if self.error:` is truthy, i.e. when `error` is a non-`None`, non-empty
string. -/
def StreamChunk.to_json (c : StreamChunk) : List (String × JVal) :=
  [("content", JVal.str c.content), ("done", JVal.bool c.done),
   ("metadata", JVal.dict c.metadata)] ++
  (match c.error with
   | some e => if e = "" then [] else [("error", JVal.str e)]
   | none => [])

/-- The outcome of iterating an upstream LLM stream: the iterator yields
`chunks` and then either completes normally (`ok`) or raises an exception
whose `str` is `msg` (`err`). -/
inductive StreamOutcome where
  | ok (chunks : List String)
  | err (chunks : List String) (msg : String)
deriving DecidableEq, Repr

/-- The text fragments the upstream iterator yielded before finishing. -/
def StreamOutcome.chunks : StreamOutcome → List String
  | .ok cs => cs
  | .err cs _ => cs

/-- A non-terminal fragment as built in streaming.py line 45 and chat.py
lines 235-239: `content=chunk, done=False, metadata={"message_id": mid}`. -/
def nontermChunk (message_id s : String) : StreamChunk :=
  { content := s, done := false, metadata := [("message_id", message_id)] }

/-- The success terminal fragment (streaming.py line 48, chat.py 244-248):
`content="", done=True, metadata={"message_id": mid}`. -/
def finalChunk (message_id : String) : StreamChunk :=
  { content := "", done := true, metadata := [("message_id", message_id)] }

/-- The error terminal fragment (streaming.py lines 52-57, chat.py 270-275):
`content="", done=True, metadata={"message_id": mid}, error=str(e)`. -/
def errorChunk (message_id e : String) : StreamChunk :=
  { content := "", done := true, metadata := [("message_id", message_id)],
    error := some e }

/-- `stream_llm_response` (streaming.py lines 38-57) as a function from the
upstream iterator's outcome to the list of chunks the generator yields: each
upstream fragment as a non-terminal chunk, then one terminal chunk — the
plain final chunk on normal completion, the error chunk if the iterator
raised. -/
def stream_llm_response (outcome : StreamOutcome) (message_id : String) :
    List StreamChunk :=
  match outcome with
  | .ok cs => cs.map (nontermChunk message_id) ++ [finalChunk message_id]
  | .err cs e => cs.map (nontermChunk message_id) ++ [errorChunk message_id e]

/-! ## The websocket exchange loop (`src/api/chat.py` lines 198-276)

One iteration of the `while True` loop, from receiving a client message to
finishing that exchange, recorded as a trace of observable events. -/

/-- An observable effect of the exchange handler: a frame sent on the
websocket, a message appended to persisted history
(`add_message_to_conversation`), or attachment cleanup. -/
inductive Ev where
  | send (c : StreamChunk)
  | save (role : String) (content : String)
  | cleanup
deriving DecidableEq, Repr

/-- Outcome of the steps chat.py runs *after* the success terminal frame but
still inside the same `try` (lines 252-264): the assistant-message save, the
conversation refresh and the attachment cleanup.  `saveRaises e`: the
assistant save raised (nothing appended); `laterRaises e`: the save
succeeded but the refresh or cleanup raised. -/
inductive PostStream where
  | allOk
  | saveRaises (e : String)
  | laterRaises (e : String)
deriving DecidableEq, Repr

/-- One exchange of `websocket_chat` (chat.py lines 198-276) as an event
trace.  The user message is saved first (lines 216-222).  Then each upstream
fragment is sent as a non-terminal frame while `full_response` accumulates
(lines 233-241).  On normal completion the final frame is sent (249), the
assistant message is saved (252-257), the conversation is refreshed and
attachments cleaned (260-264).  Any exception inside the `try` — from the
upstream iterator or from those post-stream steps — lands in the handler at
lines 268-276, which sends one error frame. -/
def websocket_exchange (content : String) (hasAttachments : Bool)
    (upstream : StreamOutcome) (post : PostStream) (message_id : String) :
    List Ev :=
  Ev.save "user" content ::
  match upstream with
  | .err cs e =>
      cs.map (fun c => Ev.send (nontermChunk message_id c)) ++
        [Ev.send (errorChunk message_id e)]
  | .ok cs =>
      cs.map (fun c => Ev.send (nontermChunk message_id c)) ++
        [Ev.send (finalChunk message_id)] ++
        match post with
        | .allOk =>
            Ev.save "assistant" (String.join cs) ::
              (if hasAttachments then [Ev.cleanup] else [])
        | .saveRaises e => [Ev.send (errorChunk message_id e)]
        | .laterRaises e =>
            [Ev.save "assistant" (String.join cs),
             Ev.send (errorChunk message_id e)]

/-- The frames a trace sends, in order. -/
def sentFrames (tr : List Ev) : List StreamChunk :=
  tr.filterMap fun ev =>
    match ev with
    | .send c => some c
    | _ => none

/-- The `(role, content)` pairs a trace appends to persisted history, in
order. -/
def savedMessages (tr : List Ev) : List (String × String) :=
  tr.filterMap fun ev =>
    match ev with
    | .save r c => some (r, c)
    | _ => none

/-! ## Connection manager (`src/api/chat.py` lines 25-50)

`active_connections` is a Python dict `conv_id -> (websocket, user_id)`; we
model it as a function, and a websocket by an identifier.  The observable
side effects of `connect` on the channels are recorded explicitly. -/

/-- Effects of a `ConnectionManager.connect` call on the channels: which
sockets were accepted, which were closed, and which frames were sent to
which socket. -/
structure ConnectEffects where
  accepted : List Nat
  closed : List Nat
  framesSent : List (Nat × StreamChunk)
deriving DecidableEq, Repr

/-- The manager's `active_connections` dict. -/
def ConnState := String → Option (Nat × String)

/-- `ConnectionManager.connect` (chat.py lines 31-35): `await
websocket.accept()` then `self.active_connections[conv_id] = (websocket,
user_id)` — a plain dict assignment that overwrites any previous binding.
The only channel effect is accepting the new socket; no socket is closed
and no frame is sent. -/
def ConnectionManager.connect (st : ConnState) (ws : Nat)
    (conv_id user_id : String) : ConnState × ConnectEffects :=
  (fun k => if k = conv_id then some (ws, user_id) else st k,
   { accepted := [ws], closed := [], framesSent := [] })

/-- `ConnectionManager.disconnect` (chat.py lines 37-41): deletes the entry
if present. -/
def ConnectionManager.disconnect (st : ConnState) (conv_id : String) :
    ConnState :=
  fun k => if k = conv_id then none else st k

/-! ## Conversation store and HTTP endpoint (`src/db/mongo.py`,
`src/api/chat.py` lines 71-150) -/

/-- A stored conversation document (the fields the chat API reads). -/
structure Conversation where
  id : String
  user_id : String
  messages : List (String × String)
deriving DecidableEq, Repr

/-- `get_conversation_for_user` (mongo.py lines 313-328):
`find_one({"id": conv_id, "user_id": user_id})` — the single query filters
on both the conversation id and the owner, so a missing document and a
document owned by someone else both come back as `None`. -/
def get_conversation_for_user (db : List Conversation)
    (conv_id user_id : String) : Option Conversation :=
  db.find? fun c => c.id == conv_id && c.user_id == user_id

/-- An `HTTPException` as raised by the endpoint. -/
structure HTTPError where
  status_code : Nat
  detail : String
deriving DecidableEq, Repr

/-- The `ChatResponse` returned by the non-streaming endpoint. -/
structure ChatResponse where
  message_id : String
  content : String
  done : Bool
deriving DecidableEq, Repr

/-- Outcome of `supervisor.execute` (or any awaited responder call): either
a response string or a raised exception. -/
inductive ExecOutcome where
  | ok (response : String)
  | raises (e : String)
deriving DecidableEq, Repr

/-- The body of `send_message` (chat.py lines 71-150) after authentication,
given the ownership-checked lookup result and the responder outcome.
Returns the HTTP result together with the `(role, content)` pairs appended
to history.  Lines 96-100: missing lookup → 404 "Conversation not found".
Lines 112-119: a responder exception → 500, raised *before* any
`add_message_to_conversation` call.  Lines 121-135: on success the user
message and then the assistant message are appended. -/
def send_message (conversation : Option Conversation) (content : String)
    (outcome : ExecOutcome) (new_message_id : String) :
    Except HTTPError ChatResponse × List (String × String) :=
  match conversation with
  | none => (.error { status_code := 404, detail := "Conversation not found" }, [])
  | some _ =>
    match outcome with
    | .raises e => (.error { status_code := 500, detail := e }, [])
    | .ok r =>
        (.ok { message_id := new_message_id, content := r, done := true },
         [("user", content), ("assistant", r)])

/-- The endpoint composed with the store lookup. -/
def send_message_endpoint (db : List Conversation)
    (conv_id user_id content : String) (outcome : ExecOutcome)
    (new_message_id : String) :
    Except HTTPError ChatResponse × List (String × String) :=
  send_message (get_conversation_for_user db conv_id user_id) content outcome
    new_message_id

/-- What a websocket client observes from the connect phase of
`websocket_chat` (chat.py lines 180-193): either the connection is refused
with a single frame then closed, or it is accepted and bound. -/
inductive WsConnectResult where
  | refused (frame : List (String × JVal))
  | connected
deriving DecidableEq, Repr

/-- The ownership gate of `websocket_chat` (chat.py lines 180-193): a failed
lookup sends the literal frame `{"content": "", "done": true, "metadata":
{}, "error": "Conversation not found"}` and closes; otherwise the
connection proceeds to `manager.connect`. -/
def websocket_connect_gate (db : List Conversation)
    (conv_id user_id : String) : WsConnectResult :=
  match get_conversation_for_user db conv_id user_id with
  | none =>
      .refused [("content", JVal.str ""), ("done", JVal.bool true),
                ("metadata", JVal.dict []), ("error", JVal.str "Conversation not found")]
  | some _ => .connected

/-! ## Intent router (`src/agents/supervisor.py`) -/

/-- `IntentResult` (models/conversation.py lines 77-83).  `confidence` is a
Python float; the values this development reasons about (0.5) are exact,
so it is embedded as a rational. -/
structure IntentResult where
  intent : String
  confidence : ℚ
  agent : Option String
  reasoning : String
deriving DecidableEq, Repr

/-- How the body of the `try` in `recognize_intent` (supervisor.py lines
70-81) turned out: the `get_llm_response` call raised, the
`json.loads` / `IntentResult(**...)` parse raised, or a decision was
produced. -/
inductive ClassifyOutcome where
  | upstreamRaises (e : String)
  | parseRaises (e : String)
  | parsed (r : IntentResult)
deriving DecidableEq, Repr

/-- The default decision built in the `except` branch (supervisor.py lines
86-91). -/
def fallbackIntent : IntentResult :=
  { intent := "general_chat", confidence := (1 : ℚ) / 2, agent := none,
    reasoning := "Intent recognition failed, defaulting to general chat" }

/-- `SupervisorAgent.recognize_intent` (supervisor.py lines 22-91): any
exception from the upstream call or from parsing is caught and replaced by
the default decision; a parsed decision is returned as-is. -/
def recognize_intent : ClassifyOutcome → IntentResult
  | .parsed r => r
  | .upstreamRaises _ => fallbackIntent
  | .parseRaises _ => fallbackIntent

/-- How `SupervisorAgent.execute` disposes of the exchange. -/
inductive Route where
  | delegated (agentName : String)
  | direct
deriving DecidableEq, Repr

/-- The routing step of `SupervisorAgent.execute` (supervisor.py lines
110-120): `if intent_result.agent and agent_registry.has_agent(...)` —
note the Python truthiness test, under which an empty-string agent name
also falls through to direct handling. -/
def SupervisorAgent.execute_route (classify : ClassifyOutcome)
    (registry : List String) : Route :=
  let ir := recognize_intent classify
  match ir.agent with
  | some a => if a != "" && registry.contains a then .delegated a else .direct
  | none => .direct

/-! ## LLM client factory (`src/core/llm_client.py` lines 142-196) -/

/-- The settings fields the factory reads (config.py). -/
structure Settings where
  default_llm_provider : String
  openai_api_key : String
  anthropic_api_key : String
  api_key : String
  base_url : String
deriving DecidableEq, Repr

/-- A constructed client: `OpenAIClient(api_key, base_url)` or
`AnthropicClient(api_key)`. -/
inductive LLMClient where
  | openaiClient (api_key : String) (base_url : Option String)
  | anthropicClient (api_key : String)
deriving DecidableEq, Repr

/-- `provider = provider or settings.default_llm_provider` (llm_client.py
line 150): Python `or` falls back on `None` and on the empty string. -/
def resolveProvider (settings : Settings) (provider : Option String) : String :=
  match provider with
  | none => settings.default_llm_provider
  | some s => if s = "" then settings.default_llm_provider else s

/-- `LLMClientFactory.get_client` (llm_client.py lines 147-166): check the
memo cache, else construct for `openai` / `anthropic` / `qwen`, else
`raise ValueError(f"Unsupported LLM provider: {provider}")`.  The error
case carries the exception message. -/
def LLMClientFactory.get_client (settings : Settings)
    (cache : List (String × LLMClient)) (provider : Option String) :
    Except String (LLMClient × List (String × LLMClient)) :=
  let p := resolveProvider settings provider
  match cache.lookup p with
  | some c => .ok (c, cache)
  | none =>
      if p = "openai" then
        let c := LLMClient.openaiClient settings.openai_api_key none
        .ok (c, (p, c) :: cache)
      else if p = "anthropic" then
        let c := LLMClient.anthropicClient settings.anthropic_api_key
        .ok (c, (p, c) :: cache)
      else if p = "qwen" then
        let c := LLMClient.openaiClient settings.api_key (some settings.base_url)
        .ok (c, (p, c) :: cache)
      else
        .error ("Unsupported LLM provider: " ++ p)

/-- How far a `get_llm_response` / `get_llm_response_stream` call gets
(llm_client.py lines 169-196): the factory lookup happens *inside* the
call, so an unknown provider raises there, before any upstream request. -/
inductive CallPhase where
  | failedAtCall (e : String)
  | upstreamCalled (client : LLMClient)
deriving DecidableEq, Repr

/-- The provider-selection part of `get_llm_response` (llm_client.py lines
169-180): `client = LLMClientFactory.get_client(provider)` runs at call
time; a factory error escapes the completion call. -/
def get_llm_response_phase (settings : Settings)
    (cache : List (String × LLMClient)) (provider : Option String) :
    CallPhase × List (String × LLMClient) :=
  match LLMClientFactory.get_client settings cache provider with
  | .error e => (.failedAtCall e, cache)
  | .ok (c, cache') => (.upstreamCalled c, cache')

/-- A startup action of the application lifespan. -/
inductive StartupAction where
  | configureLogging
  | connectDb
  | initDb
  | listAgents
  | constructLLMClient (provider : String)
deriving DecidableEq, Repr

/-- The startup half of `lifespan` (main.py lines 17-31): configure logging,
connect Mongo, init the database, list the registered agents.  No LLM
client is constructed at startup anywhere in the application. -/
def lifespan_startup : List StartupAction :=
  [.configureLogging, .connectDb, .initDb, .listAgents]

/-! ## Provider adapters (`src/core/llm_client.py` lines 38-139) -/

/-- One streaming chunk from the OpenAI SDK: `chunk.choices[0].delta.content`
is an optional string. -/
structure OpenAIChunk where
  delta_content : Option String
deriving DecidableEq, Repr

/-- `OpenAIClient.chat_completion_stream` (llm_client.py lines 44-60): the
loop yields `chunk.choices[0].delta.content` only when it is truthy, so
`None` and `""` increments are skipped. -/
def OpenAIClient.chat_completion_stream (chunks : List OpenAIChunk) :
    List String :=
  chunks.filterMap fun ch =>
    match ch.delta_content with
    | some s => if s = "" then none else some s
    | none => none

/-- One streaming event from the Anthropic SDK: its `type` tag and, for
delta events, `chunk.delta.text`. -/
structure AnthropicChunk where
  type : String
  delta_text : String
deriving DecidableEq, Repr

/-- `AnthropicClient.chat_completion_stream` (llm_client.py lines 84-112):
the loop yields `chunk.delta.text` for every event whose type is
`content_block_delta`, with no emptiness check. -/
def AnthropicClient.chat_completion_stream (chunks : List AnthropicChunk) :
    List String :=
  chunks.filterMap fun ch =>
    if ch.type = "content_block_delta" then some ch.delta_text else none

/-! ## Document analysis agent (`src/agents/document.py`) -/

/-- Outcome of `doc_service.process_file(file_id)` for one attachment. -/
inductive AttachmentOutcome where
  | ok (content : String)
  | raises (e : String)
deriving DecidableEq, Repr

/-- The text appended to `document_content` for one attachment
(document.py lines 50-56): the content block on success, the inline error
marker naming the attachment on failure. -/
def attachmentBlock : String × AttachmentOutcome → String
  | (file_id, .ok content) =>
      "\n\n--- Document Content (" ++ file_id ++ ") ---\n" ++ content ++
        "\n--- End of Document ---\n"
  | (file_id, .raises e) =>
      "\n\nError processing document " ++ file_id ++ ": " ++ e ++ "\n"

/-- The attachment loop of `DocumentAnalysisAgent.execute` (document.py
lines 47-56): `document_content` starts empty and accumulates one block per
attachment, failures included. -/
def document_content (atts : List (String × AttachmentOutcome)) : String :=
  atts.foldl (fun acc a => acc ++ attachmentBlock a) ""

/-- Lines 58-61 of document.py: `if document_content:` — the combined input
is the plain query when the accumulated text is empty, otherwise the query
plus the document content. -/
def document_full_input (input_text : String)
    (atts : List (String × AttachmentOutcome)) : String :=
  let dc := document_content atts
  if dc = "" then input_text
  else "User Query: " ++ input_text ++ "\n\nDocument Content:\n" ++ dc

/-- The tail of `DocumentAnalysisAgent.execute` (document.py lines 68-74):
the responder call itself is also guarded, a failure becoming an apology
string rather than an exception. -/
def DocumentAnalysisAgent.execute_result (llm : ExecOutcome) : String :=
  match llm with
  | .ok r => r
  | .raises e =>
      "I apologize, but I encountered an error while analyzing the document: "
        ++ e

/-! ## Helper lemmas -/

/-- Saving a message contributes no frame. -/
theorem sentFrames_cons_save (r c : String) (tr : List Ev) :
    sentFrames (Ev.save r c :: tr) = sentFrames tr := rfl

/-- A block of non-terminal sends contributes exactly those chunks to the
frame sequence. -/
theorem sentFrames_sends (cs : List String) (mid : String) (rest : List Ev) :
    sentFrames (cs.map (fun c => Ev.send (nontermChunk mid c)) ++ rest)
      = cs.map (nontermChunk mid) ++ sentFrames rest := by
  induction cs with
  | nil => rfl
  | cons c cs ih => simp only [List.map_cons, List.cons_append, sentFrames,
      List.filterMap_cons] at ih ⊢; exact congrArg _ ih

/-- Non-terminal chunks are not terminal. -/
theorem countP_done_nonterm (cs : List String) (mid : String) :
    (cs.map (nontermChunk mid)).countP (fun c => c.done) = 0 := by
  induction cs with
  | nil => rfl
  | cons c cs ih => simp only [List.map_cons, List.countP_cons, nontermChunk]; simp [ih]

/-- Saving a message contributes exactly that history append. -/
theorem savedMessages_cons_save (r c : String) (tr : List Ev) :
    savedMessages (Ev.save r c :: tr) = (r, c) :: savedMessages tr := rfl

/-- A block of non-terminal sends appends nothing to history. -/
theorem savedMessages_sends (cs : List String) (mid : String) (rest : List Ev) :
    savedMessages (cs.map (fun c => Ev.send (nontermChunk mid c)) ++ rest)
      = savedMessages rest := by
  induction cs with
  | nil => rfl
  | cons c cs ih => simp only [List.map_cons, List.cons_append, savedMessages,
      List.filterMap_cons] at ih ⊢; exact ih

/-! ## Claims -/

/-- C10: the serialized frame carries an `error` key exactly when the
chunk's `error` field is a non-empty string, and an error-terminal chunk
whose error text is empty serializes identically to the corresponding
successful chunk. -/
theorem C10_error_key_iff_nonempty (c : StreamChunk) :
    (("error" ∈ c.to_json.map Prod.fst) ↔ ∃ e, c.error = some e ∧ e ≠ "")
    ∧ ∀ content done md,
        StreamChunk.to_json ⟨content, done, md, some ""⟩
          = StreamChunk.to_json ⟨content, done, md, none⟩ := by
  refine ⟨?_, fun content done md => rfl⟩
  cases h : c.error with
  | none => simp [StreamChunk.to_json, h]
  | some e =>
    rcases eq_or_ne e "" with rfl | he
    · simp [StreamChunk.to_json, h]
    · simp [StreamChunk.to_json, h, he]

/-- C2 counterexample: in the run where the upstream stream completes after
one fragment but the assistant-message save then raises, the handler sends
the success terminal frame and afterwards a second, error terminal frame —
a fragment after the terminal fragment, with two `done` frames in one
exchange. -/
theorem C2_frame_after_terminal :
    sentFrames (websocket_exchange "hi" false (StreamOutcome.ok ["a"])
        (PostStream.saveRaises "db down") "m")
      = [nontermChunk "m" "a", finalChunk "m", errorChunk "m" "db down"]
    ∧ (finalChunk "m").done = true
    ∧ (errorChunk "m" "db down").done = true := ⟨rfl, rfl, rfl⟩

/-- C2 amended: per exchange the frames are the upstream fragments in send
order followed by exactly one terminal fragment — provided that, when the
stream completes successfully, the post-stream steps (assistant save,
refresh, cleanup) that chat.py runs inside the same `try` do not raise; an
upstream failure itself still yields exactly one (error) terminal. -/
theorem C2_exactly_one_terminal (content : String) (hasAttachments : Bool)
    (upstream : StreamOutcome) (post : PostStream) (mid : String)
    (h : (∃ cs e, upstream = StreamOutcome.err cs e) ∨ post = PostStream.allOk) :
    ∃ t : StreamChunk,
      sentFrames (websocket_exchange content hasAttachments upstream post mid)
        = upstream.chunks.map (nontermChunk mid) ++ [t]
      ∧ t.done = true
      ∧ (sentFrames (websocket_exchange content hasAttachments upstream post
            mid)).countP (fun c => c.done) = 1 := by
  rcases h with ⟨cs, e, rfl⟩ | rfl
  · refine ⟨errorChunk mid e, ?_, rfl, ?_⟩
    · simp only [websocket_exchange, sentFrames_cons_save, sentFrames_sends,
        StreamOutcome.chunks]
      rfl
    · simp only [websocket_exchange, sentFrames_cons_save, sentFrames_sends]
      simp [List.countP_append, countP_done_nonterm, sentFrames, errorChunk,
        List.countP_cons, nontermChunk]
  · cases upstream with
    | err cs e =>
        refine ⟨errorChunk mid e, ?_, rfl, ?_⟩
        · simp only [websocket_exchange, sentFrames_cons_save,
            sentFrames_sends, StreamOutcome.chunks]
          rfl
        · simp only [websocket_exchange, sentFrames_cons_save,
            sentFrames_sends]
          simp [List.countP_append, countP_done_nonterm, sentFrames,
            errorChunk, List.countP_cons, nontermChunk]
    | ok cs =>
        refine ⟨finalChunk mid, ?_, rfl, ?_⟩
        · simp only [websocket_exchange, sentFrames_cons_save, List.append_assoc,
            sentFrames_sends, StreamOutcome.chunks]
          cases hasAttachments <;> rfl
        · simp only [websocket_exchange, sentFrames_cons_save,
            List.append_assoc, sentFrames_sends]
          cases hasAttachments <;>
            simp [List.countP_append, countP_done_nonterm, sentFrames,
              finalChunk, List.countP_cons, nontermChunk]

/-- C2 witness: a concrete successful exchange with benign post-stream
steps has exactly one terminal frame. -/
theorem C2_exactly_one_terminal_witness :
    ∃ t : StreamChunk,
      sentFrames (websocket_exchange "hi" false (StreamOutcome.ok ["a"])
          PostStream.allOk "m")
        = (StreamOutcome.ok ["a"]).chunks.map (nontermChunk "m") ++ [t]
      ∧ t.done = true
      ∧ (sentFrames (websocket_exchange "hi" false (StreamOutcome.ok ["a"])
            PostStream.allOk "m")).countP (fun c => c.done) = 1 :=
  C2_exactly_one_terminal "hi" false (StreamOutcome.ok ["a"])
    PostStream.allOk "m" (Or.inr rfl)

/-- C3 counterexample: the upstream raises after one fragment `"a"`.  The
client does see that fragment and one error terminal, but the persisted
history for the exchange holds only the user message — no assistant
message (equal to `"a"` or otherwise) is appended, where the claim
requires one equal to the concatenation of the sent fragments. -/
theorem C3_no_assistant_persisted_on_error :
    savedMessages (websocket_exchange "hi" false
        (StreamOutcome.err ["a"] "boom") PostStream.allOk "m")
      = [("user", "hi")]
    ∧ (savedMessages (websocket_exchange "hi" false
          (StreamOutcome.err ["a"] "boom") PostStream.allOk "m")).countP
        (fun p => p.1 == "assistant") = 0 := ⟨rfl, rfl⟩

/-- C3 amended: when the upstream responder raises after emitting `k`
fragments, the client observes exactly those `k` fragments followed by the
one terminal fragment carrying the error text; but nothing is appended to
persisted history beyond the user message — the assistant save runs only
on successful stream completion, so no assistant message (not even an
empty one) is persisted. -/
theorem C3_error_exchange_observables (content : String)
    (hasAttachments : Bool) (cs : List String) (e : String)
    (post : PostStream) (mid : String) :
    sentFrames (websocket_exchange content hasAttachments
        (StreamOutcome.err cs e) post mid)
      = cs.map (nontermChunk mid) ++ [errorChunk mid e]
    ∧ savedMessages (websocket_exchange content hasAttachments
        (StreamOutcome.err cs e) post mid)
      = [("user", content)] := by
  constructor
  · simp only [websocket_exchange, sentFrames_cons_save, sentFrames_sends]
    rfl
  · rw [show websocket_exchange content hasAttachments (StreamOutcome.err cs e)
          post mid
        = Ev.save "user" content ::
            (cs.map (fun c => Ev.send (nontermChunk mid c)) ++
              [Ev.send (errorChunk mid e)]) from rfl,
      savedMessages_cons_save, savedMessages_sends]
    rfl

/-- C9: in the non-streaming endpoint a responder failure leaves history
untouched (the 500 is raised before either write; both writes happen only
after success), whereas the streaming handler saves the user message as
its first effect, before any frame is sent. -/
theorem C9_no_writes_on_responder_failure (conv : Conversation)
    (content e r mid : String) (hasAttachments : Bool)
    (upstream : StreamOutcome) (post : PostStream) :
    send_message (some conv) content (ExecOutcome.raises e) mid
      = (.error { status_code := 500, detail := e }, [])
    ∧ (send_message (some conv) content (ExecOutcome.ok r) mid).2
      = [("user", content), ("assistant", r)]
    ∧ (websocket_exchange content hasAttachments upstream post mid).head?
      = some (Ev.save "user" content) := ⟨rfl, rfl, rfl⟩

/-- C1 counterexample: socket 1 is bound to conversation `"c"`; socket 2
then connects for the same conversation.  The rebind's only channel effect
is accepting socket 2 — no socket is closed and no frame (terminal error
or otherwise) is sent to socket 1, where the claim requires the previous
channel to be closed with a terminal error frame before the new bind
completes. -/
theorem C1_rebind_closes_nothing :
    (ConnectionManager.connect
        (ConnectionManager.connect (fun _ => none) 1 "c" "alice").1
        2 "c" "bob").2
      = { accepted := [2], closed := [], framesSent := [] }
    ∧ (ConnectionManager.connect
        (ConnectionManager.connect (fun _ => none) 1 "c" "alice").1
        2 "c" "bob").1 "c" = some (2, "bob") := by
  exact ⟨rfl, by simp [ConnectionManager.connect]⟩

/-- C1 amended: `connect` overwrites the stored binding, so at most one
bound channel per conversation id exists in the manager's map and other
conversations are untouched; but the manager neither closes the displaced
channel nor sends it any frame — the previous websocket is merely dropped
from the map and stays open. -/
theorem C1_overwrite_without_close (st : ConnState) (ws : Nat)
    (conv_id user_id : String) :
    (∀ k, (ConnectionManager.connect st ws conv_id user_id).1 k
        = if k = conv_id then some (ws, user_id) else st k)
    ∧ (ConnectionManager.connect st ws conv_id user_id).2.closed = []
    ∧ (ConnectionManager.connect st ws conv_id user_id).2.framesSent = []
    ∧ (ConnectionManager.connect st ws conv_id user_id).2.accepted = [ws] :=
  ⟨fun _ => rfl, rfl, rfl, rfl⟩

/-- C4: any failure of the classification call — the upstream completion
raising or the structured reply failing to parse — is swallowed: the
router returns exactly the default decision with intent `general_chat`,
confidence 0.5 and no agent name, and `execute` then handles the exchange
directly instead of aborting. -/
theorem C4_classification_failure_defaults (e : String)
    (registry : List String) :
    recognize_intent (ClassifyOutcome.upstreamRaises e) = fallbackIntent
    ∧ recognize_intent (ClassifyOutcome.parseRaises e) = fallbackIntent
    ∧ fallbackIntent.intent = "general_chat"
    ∧ fallbackIntent.confidence = (1 : ℚ) / 2
    ∧ fallbackIntent.agent = none
    ∧ SupervisorAgent.execute_route (ClassifyOutcome.upstreamRaises e)
        registry = Route.direct
    ∧ SupervisorAgent.execute_route (ClassifyOutcome.parseRaises e)
        registry = Route.direct :=
  ⟨rfl, rfl, rfl, rfl, rfl, rfl, rfl⟩

/-- C5 counterexample: with an empty client cache, a completion call that
names the unknown provider `"bogus"` fails inside the call itself with the
`ValueError` message — the adapter-selection failure happens at call time,
and the application startup sequence constructs no LLM client at all (so
nothing can fail at construction/startup time). -/
theorem C5_unknown_provider_fails_at_call :
    get_llm_response_phase
        { default_llm_provider := "openai", openai_api_key := "k1",
          anthropic_api_key := "k2", api_key := "k3", base_url := "u" }
        [] (some "bogus")
      = (CallPhase.failedAtCall "Unsupported LLM provider: bogus", [])
    ∧ (lifespan_startup.countP fun a =>
        match a with
        | .constructLLMClient _ => true
        | _ => false) = 0 := by
  exact ⟨by simp [get_llm_response_phase, LLMClientFactory.get_client,
    resolveProvider], rfl⟩

/-- C5 amended: adapter selection is lazy — the factory runs inside each
completion call, so an unknown, uncached provider name makes the
completion call itself fail with `ValueError("Unsupported LLM provider:
...")` at call time; startup constructs no client, so the failure never
happens at construction/startup time. -/
theorem C5_lazy_factory_error (settings : Settings)
    (cache : List (String × LLMClient)) (p : String)
    (hne : p ≠ "") (h1 : p ≠ "openai") (h2 : p ≠ "anthropic")
    (h3 : p ≠ "qwen") (hc : cache.lookup p = none) :
    get_llm_response_phase settings cache (some p)
      = (CallPhase.failedAtCall ("Unsupported LLM provider: " ++ p), cache)
    ∧ (lifespan_startup.countP fun a =>
        match a with
        | .constructLLMClient _ => true
        | _ => false) = 0 := by
  refine ⟨?_, rfl⟩
  simp [get_llm_response_phase, LLMClientFactory.get_client, resolveProvider,
    hne, h1, h2, h3, hc]

/-- C5 witness: the amended statement at the concrete provider `"bogus"`. -/
theorem C5_lazy_factory_error_witness :
    ("bogus" : String) ≠ "" ∧ ("bogus" : String) ≠ "openai"
    ∧ ("bogus" : String) ≠ "anthropic" ∧ ("bogus" : String) ≠ "qwen"
    ∧ ([] : List (String × LLMClient)).lookup "bogus" = none
    ∧ (get_llm_response_phase
          { default_llm_provider := "openai", openai_api_key := "k1",
            anthropic_api_key := "k2", api_key := "k3", base_url := "u" }
          [] (some "bogus")
        = (CallPhase.failedAtCall ("Unsupported LLM provider: " ++ "bogus"), [])
      ∧ (lifespan_startup.countP fun a =>
          match a with
          | .constructLLMClient _ => true
          | _ => false) = 0) :=
  ⟨by decide, by decide, by decide, by decide, rfl,
   C5_lazy_factory_error
     { default_llm_provider := "openai", openai_api_key := "k1",
       anthropic_api_key := "k2", api_key := "k3", base_url := "u" }
     [] "bogus" (by decide) (by decide) (by decide) (by decide) rfl⟩

/-- The ownership-scoped lookup returns `none` whenever no stored
conversation has both the requested id and the requesting owner. -/
theorem get_conversation_for_user_eq_none (db : List Conversation)
    (cid u : String)
    (h : ∀ c ∈ db, ¬(c.id = cid ∧ c.user_id = u)) :
    get_conversation_for_user db cid u = none := by
  unfold get_conversation_for_user
  rw [List.find?_eq_none]
  intro c hc
  simpa [Bool.and_eq_true, beq_iff_eq] using h c hc

/-- C6: a conversation id that does not exist and one owned by a different
principal are indistinguishable to the caller — the non-streaming endpoint
returns the identical 404 result with no history writes, and the websocket
gate sends the identical refusal frame; both equal the fixed
"Conversation not found" shape. -/
theorem C6_absence_equals_nonownership (db1 db2 : List Conversation)
    (cid u content mid : String) (outcome : ExecOutcome)
    (h1 : ∀ c ∈ db1, c.id ≠ cid)
    (h2 : ∀ c ∈ db2, c.id = cid → c.user_id ≠ u) :
    send_message_endpoint db1 cid u content outcome mid
      = send_message_endpoint db2 cid u content outcome mid
    ∧ websocket_connect_gate db1 cid u = websocket_connect_gate db2 cid u
    ∧ send_message_endpoint db1 cid u content outcome mid
      = (.error { status_code := 404, detail := "Conversation not found" }, []) := by
  have e1 : get_conversation_for_user db1 cid u = none :=
    get_conversation_for_user_eq_none db1 cid u
      (fun c hc hp => h1 c hc hp.1)
  have e2 : get_conversation_for_user db2 cid u = none :=
    get_conversation_for_user_eq_none db2 cid u
      (fun c hc hp => h2 c hc hp.1 hp.2)
  refine ⟨?_, ?_, ?_⟩ <;>
    simp [send_message_endpoint, websocket_connect_gate, send_message, e1, e2]

/-- C6 witness: an empty store versus a store whose only `"c1"` is owned by
`"alice"`, queried by `"bob"`. -/
theorem C6_absence_equals_nonownership_witness :
    (∀ c ∈ ([] : List Conversation), c.id ≠ "c1")
    ∧ (∀ c ∈ [Conversation.mk "c1" "alice" []], c.id = "c1" → c.user_id ≠ "bob")
    ∧ (send_message_endpoint [] "c1" "bob" "hi" (ExecOutcome.ok "r") "m"
        = send_message_endpoint [Conversation.mk "c1" "alice" []] "c1" "bob"
            "hi" (ExecOutcome.ok "r") "m"
      ∧ websocket_connect_gate [] "c1" "bob"
        = websocket_connect_gate [Conversation.mk "c1" "alice" []] "c1" "bob"
      ∧ send_message_endpoint [] "c1" "bob" "hi" (ExecOutcome.ok "r") "m"
        = (.error { status_code := 404, detail := "Conversation not found" }, [])) :=
  ⟨by decide, by decide,
   C6_absence_equals_nonownership [] [Conversation.mk "c1" "alice" []]
     "c1" "bob" "hi" "m" (ExecOutcome.ok "r") (by decide) (by decide)⟩

/-- C7 counterexample: the Anthropic adapter forwards the text of every
`content_block_delta` event without an emptiness check, so an empty
backend increment is yielded to the consumer as an empty fragment. -/
theorem C7_anthropic_forwards_empty :
    AnthropicClient.chat_completion_stream
        [AnthropicChunk.mk "content_block_delta" "Hi",
         AnthropicChunk.mk "content_block_delta" "",
         AnthropicChunk.mk "message_stop" ""]
      = ["Hi", ""] := rfl

/-- C7 amended: the OpenAI adapter does skip falsy increments, so every
fragment it yields is non-empty; the Anthropic adapter forwards deltas
unchecked (see the counterexample), so the non-emptiness guarantee holds
only for the OpenAI-shaped adapter. -/
theorem C7_openai_fragments_nonempty (chunks : List OpenAIChunk) (s : String)
    (hs : s ∈ OpenAIClient.chat_completion_stream chunks) : s ≠ "" := by
  unfold OpenAIClient.chat_completion_stream at hs
  rw [List.mem_filterMap] at hs
  obtain ⟨ch, _, h⟩ := hs
  cases hd : ch.delta_content with
  | none => rw [hd] at h; exact absurd h (by simp)
  | some t =>
      rw [hd] at h
      have h' : (if t = "" then none else some t) = some s := h
      by_cases ht : t = ""
      · rw [if_pos ht] at h'; exact absurd h' (by simp)
      · rw [if_neg ht] at h'
        obtain rfl : t = s := Option.some.inj h'
        exact ht

/-- C7 witness: the fragment `"Hi"` yielded on a concrete OpenAI stream is
non-empty. -/
theorem C7_openai_fragments_nonempty_witness :
    ("Hi" ∈ OpenAIClient.chat_completion_stream
        [OpenAIChunk.mk (some "Hi"), OpenAIChunk.mk (some ""),
         OpenAIChunk.mk none])
    ∧ ("Hi" : String) ≠ "" :=
  ⟨by decide,
   C7_openai_fragments_nonempty
     [OpenAIChunk.mk (some "Hi"), OpenAIChunk.mk (some ""),
      OpenAIChunk.mk none] "Hi" (by decide)⟩

/-- The attachment fold with an arbitrary accumulator. -/
theorem document_content_foldl (xs : List (String × AttachmentOutcome))
    (acc : String) :
    xs.foldl (fun a b => a ++ attachmentBlock b) acc
      = acc ++ document_content xs := by
  induction xs generalizing acc with
  | nil => simp [document_content, String.append_empty]
  | cons x xs ih =>
      show xs.foldl _ (acc ++ attachmentBlock x) = _
      rw [ih]
      have hx : document_content (x :: xs)
          = attachmentBlock x ++ document_content xs := by
        show xs.foldl _ ("" ++ attachmentBlock x) = _
        rw [ih, String.empty_append]
      rw [hx, String.append_assoc]

/-- `document_content` distributes over list append. -/
theorem document_content_append (xs ys : List (String × AttachmentOutcome)) :
    document_content (xs ++ ys)
      = document_content xs ++ document_content ys := by
  show (xs ++ ys).foldl _ "" = _
  rw [List.foldl_append, document_content_foldl]
  rfl

/-- C8: one failing attachment among several does not abort the exchange —
the accumulated document text is exactly the blocks of the preceding
attachments, then the inline error marker naming the failed attachment,
then the blocks of the remaining attachments; the combined input handed to
the responder wraps that text; and the responder call still completes the
exchange with its answer. -/
theorem C8_attachment_failure_inline (input_text fid e r : String)
    (pre post : List (String × AttachmentOutcome)) :
    document_content (pre ++ (fid, AttachmentOutcome.raises e) :: post)
      = document_content pre
        ++ ("\n\nError processing document " ++ fid ++ ": " ++ e ++ "\n")
        ++ document_content post
    ∧ document_full_input input_text
        (pre ++ (fid, AttachmentOutcome.raises e) :: post)
      = "User Query: " ++ input_text ++ "\n\nDocument Content:\n"
        ++ document_content (pre ++ (fid, AttachmentOutcome.raises e) :: post)
    ∧ DocumentAnalysisAgent.execute_result (ExecOutcome.ok r) = r := by
  have hcons : document_content ((fid, AttachmentOutcome.raises e) :: post)
      = attachmentBlock (fid, AttachmentOutcome.raises e)
        ++ document_content post := by
    show post.foldl _ ("" ++ _) = _
    rw [document_content_foldl, String.empty_append]
  have hdc : document_content (pre ++ (fid, AttachmentOutcome.raises e) :: post)
      = document_content pre
        ++ attachmentBlock (fid, AttachmentOutcome.raises e)
        ++ document_content post := by
    rw [document_content_append, hcons, String.append_assoc]
  have h29 : ("\n\nError processing document " : String).length = 28 := by decide
  have hpos : 0 < (attachmentBlock (fid, AttachmentOutcome.raises e)).length := by
    simp only [attachmentBlock, String.length_append, h29]
    omega
  have hne : document_content (pre ++ (fid, AttachmentOutcome.raises e) :: post)
      ≠ "" := by
    intro h0
    rw [hdc] at h0
    have hl := congrArg String.length h0
    simp only [String.length_append, String.length_empty] at hl
    omega
  refine ⟨?_, ?_, rfl⟩
  · rw [hdc]
    simp [attachmentBlock, String.append_assoc]
  · simp [document_full_input, hne]

end AIChat
